import Mathlib

/-!
Verification of the agentcy multi-agent creative-collaboration platform.

The pure logic of `src/agentcy.py` is embedded shallowly: every external
effect (HTTP requests, the replicate model API, the OpenAI summarizer, the
filesystem) is passed in as an explicit outcome oracle, where an
`Except String` value distinguishes a Python exception (`Except.error`,
carrying `str(e)`) from a normal return.  Outcome oracles for operations the
source invokes at most once are indexed by an attempt counter (`Nat`) so that
"no automatic retry" is expressible: the embedded code may only consult
attempt `0`.

The group-chat round loop, speaker selection and function dispatch live in
the external AG2 framework, which the repository only configures
(`is_termination_msg`, `max_round`, `function_map`); following the design
document those parts are modelled from the spec, each such definition marked
by a doc comment beginning `Modelled from the spec:`.
-/

namespace Agentcy

/-- Python truthiness of an optional string (`os.getenv` result): `None` and
the empty string are falsy, any other string is truthy. -/
def pyTruthy : Option String → Bool
  | none => false
  | some s => !s.data.isEmpty

/-- Python's substring containment `needle in haystack` on `str`:
plain contiguous-substring match on the character sequences. -/
def containsSubstr (needle haystack : String) : Bool :=
  decide (needle.data <:+: haystack.data)

/-- Worker for `pySplitWhitespace`: walk the characters, accumulating the
current (reversed) word and emitting it at each whitespace boundary. -/
def pySplitWhitespaceAux : List Char → List Char → List String
  | [], acc => if acc.isEmpty then [] else [String.mk acc.reverse]
  | c :: rest, acc =>
      if c.isWhitespace then
        if acc.isEmpty then pySplitWhitespaceAux rest []
        else String.mk acc.reverse :: pySplitWhitespaceAux rest []
      else pySplitWhitespaceAux rest (c :: acc)

/-- Python's `str.split()` with no arguments: split on runs of whitespace,
discarding empty fragments. -/
def pySplitWhitespace (s : String) : List String :=
  pySplitWhitespaceAux s.data []

/-- Python's `str.lower()`, character by character. -/
def pyToLower (s : String) : String :=
  String.mk (s.data.map Char.toLower)

/-- Python's `s.startswith(pre)`: the second string is a prefix of the
first. -/
def pyStartsWith (s pre : String) : Bool :=
  pre.data.isPrefixOf s.data

/-- Python's `str.rstrip()` on a character list: drop trailing whitespace. -/
def pyRstrip (l : List Char) : List Char :=
  (l.reverse.dropWhile Char.isWhitespace).reverse

/-- Configuration read from the environment in `AgentcyConfig.__init__`
(src/agentcy.py lines 61-65); each key is `None` when the variable is unset. -/
structure AgentcyConfig where
  openai_api_key : Option String
  serper_api_key : Option String
  browserless_api_key : Option String
  replicate_api_token : Option String
  deriving DecidableEq, Repr

/-- `AgentcyConfig.validate` (src/agentcy.py lines 85-93): the required keys
are OPENAI_API_KEY and SERPER_API_KEY; validation fails when any of them is
falsy. -/
def AgentcyConfig.validate (cfg : AgentcyConfig) : Bool :=
  let required_keys := [cfg.openai_api_key, cfg.serper_api_key]
  let missing_keys := required_keys.filter (fun key => !pyTruthy key)
  if !missing_keys.isEmpty then false else true

/-- The session core; `AgentcyCore.__init__` stores the validated
configuration (src/agentcy.py lines 364-381). -/
structure AgentcyCore where
  config : AgentcyConfig
  deriving DecidableEq, Repr

/-- `AgentcyCore.__init__` (src/agentcy.py lines 364-367): raises
`ValueError("Configuration validation failed")` when `config.validate()` is
false, before any agent or group chat is constructed. -/
def AgentcyCore.init (cfg : AgentcyConfig) : Except String AgentcyCore :=
  if cfg.validate then Except.ok { config := cfg }
  else Except.error "Configuration validation failed"

/-- One organic entry of the Serper search response, with each JSON key
optional as in the Python dict (`result.get(...)`). -/
structure OrganicResult where
  title : Option String
  snippet : Option String
  link : Option String
  deriving DecidableEq, Repr

/-- One related-search entry of the Serper search response. -/
structure RelatedSearch where
  query : Option String
  deriving DecidableEq, Repr

/-- The decoded Serper JSON response as `advanced_research` reads it: the
keys `error`, `organic` and `relatedSearches`, each optional. -/
structure SearchResponse where
  error : Option String
  organic : Option (List OrganicResult)
  relatedSearches : Option (List RelatedSearch)
  deriving DecidableEq, Repr

/-- `AdvancedResearchTools.search` (src/agentcy.py lines 107-121): one POST
to the Serper endpoint; a raised `requests.RequestException` is caught and
converted into a dict `{"error": "Search failed: " + str(e)}`.  The POST
outcome oracle is indexed by attempt number; the source performs exactly one
attempt, reading index 0. -/
def search (postOutcome : Nat → Except String SearchResponse) : SearchResponse :=
  match postOutcome 0 with
  | Except.ok response => response
  | Except.error e =>
      { error := some ("Search failed: " ++ e), organic := none, relatedSearches := none }

/-- The HTTP response as `scrape_basic` consumes it: the status code and the
text that `BeautifulSoup(...).get_text()` extracts from its content. -/
structure HttpTextResponse where
  status_code : Nat
  text : String
  deriving DecidableEq, Repr

/-- `AdvancedResearchTools.scrape_basic` (src/agentcy.py lines 123-150):
fetch the page (via Browserless when a key is configured, directly
otherwise); on HTTP 200 return the extracted text, summarized when longer
than 8000 characters; on any other status return `"Error: HTTP <code>"`; any
raised exception is caught and rendered as `"Scraping failed: <e>"`.
`summarize` stands for `self.summarize_text` (an OpenAI call, itself total). -/
def scrape_basic (cfg : AgentcyConfig)
    (browserlessOutcome directOutcome : String → Except String HttpTextResponse)
    (summarize : String → String) (url : String) : String :=
  let outcome :=
    if pyTruthy cfg.browserless_api_key then browserlessOutcome url
    else directOutcome url
  match outcome with
  | Except.error e => "Scraping failed: " ++ e
  | Except.ok response =>
      if response.status_code = 200 then
        let text := response.text
        if text.length > 8000 then summarize text
        else text
      else "Error: HTTP " ++ toString response.status_code

/-- The defaulted title of an organic entry:
`result.get("title", "No title")` (src/agentcy.py line 219). -/
def entryTitle (r : OrganicResult) : String := r.title.getD "No title"

/-- The defaulted snippet of an organic entry:
`result.get("snippet", "No description")` (src/agentcy.py line 220). -/
def entrySnippet (r : OrganicResult) : String := r.snippet.getD "No description"

/-- The defaulted link of an organic entry:
`result.get("link", "")` (src/agentcy.py line 221). -/
def entryLink (r : OrganicResult) : String := r.link.getD ""

/-- The scrape trigger of `advanced_research` (src/agentcy.py line 228):
some whitespace-separated word of the lowercased query occurs as a substring
of the lowercased (defaulted) title or snippet. -/
def entryMatches (query : String) (r : OrganicResult) : Bool :=
  (pySplitWhitespace (pyToLower query)).any (fun keyword =>
    containsSubstr keyword (pyToLower (entryTitle r))
      || containsSubstr keyword (pyToLower (entrySnippet r)))

/-- The inclusion test of `advanced_research` (src/agentcy.py line 230) on a
scraped string: Python-truthy (nonempty) and starting neither with `"Error"`
nor with `"Scraping failed"`. -/
def includeScraped (s : String) : Bool :=
  !s.data.isEmpty && !(pyStartsWith s "Error") && !(pyStartsWith s "Scraping failed")

/-- The three report lines appended for every processed organic entry
(src/agentcy.py lines 223-225), `i` the 0-based enumeration index. -/
def entryBaseLines (i : Nat) (r : OrganicResult) : List String :=
  ["### " ++ toString (i + 1) ++ ". " ++ entryTitle r,
   "**Source:** " ++ entryLink r,
   "**Summary:** " ++ entrySnippet r ++ "\n"]

/-- All report lines appended for one organic entry (src/agentcy.py lines
218-231): the three base lines, plus an additional-content line when the
entry matches the query and the scraped content passes `includeScraped`;
`scrape` stands for `self.scrape_basic`. -/
def entryLines (scrape : String → String) (query : String) (i : Nat)
    (r : OrganicResult) : List String :=
  entryBaseLines i r ++
    (if entryMatches query r then
      let scraped_content := scrape (entryLink r)
      if includeScraped scraped_content then
        ["**Additional Content:** " ++ String.mk (scraped_content.data.take 500) ++ "...\n"]
      else []
    else [])

/-- The body of `advanced_research` after the error check (src/agentcy.py
lines 210-239): header, key findings built from the first five organic
entries, and the related-search section, joined with newlines.  `now` stands
for the formatted `datetime.now()` value. -/
def researchReport (scrape : String → String) (now : String) (query : String)
    (sr : SearchResponse) : String :=
  let header := ["# Research Report: " ++ query ++ "\n",
                 "Generated on: " ++ now ++ "\n"]
  let findings :=
    match sr.organic with
    | none => []
    | some organic =>
        "## Key Findings\n" ::
          (organic.take 5).enum.flatMap (fun p => entryLines scrape query p.1 p.2)
  let related :=
    match sr.relatedSearches with
    | none => []
    | some rel =>
        "## Related Research Areas\n" :: rel.map (fun r => "- " ++ r.query.getD "")
  String.intercalate "\n" (header ++ findings ++ related)

/-- `AdvancedResearchTools.advanced_research` (src/agentcy.py lines 203-247):
search, bail out with `"Research failed: ..."` when the response carries an
`error` key, otherwise build the report (which is also written to a file, an
effect outside the returned value). -/
def advanced_research (postOutcome : Nat → Except String SearchResponse)
    (scrape : String → String) (now : String) (query : String) : String :=
  let search_results := search postOutcome
  match search_results.error with
  | some e => "Research failed: " ++ e
  | none => researchReport scrape now query search_results

/-- The sanitized prompt fragment of `generate_image` (src/agentcy.py line
276): the first 30 characters of the prompt, filtered to alphanumeric
characters, spaces, hyphens and underscores, with trailing whitespace
stripped. -/
def safePrompt (prompt : String) : String :=
  String.mk (pyRstrip ((prompt.data.take 30).filter (fun c =>
    c.isAlphanum || c = ' ' || c = '-' || c = '_')))

/-- The path under which `generate_image` saves a downloaded image
(src/agentcy.py line 277): `images_dir / f"{safe_prompt}_{current_time}.png"`. -/
def imageFilename (images_dir safe_prompt current_time : String) : String :=
  images_dir ++ "/" ++ safe_prompt ++ "_" ++ current_time ++ ".png"

/-- `VisualContentTools.generate_image` (src/agentcy.py lines 257-290):
guard on package and token availability, run the replicate model (attempt 0
of the indexed oracle; the source makes exactly one attempt), build the safe
filename, download the image (oracle yielding the HTTP status code), and
render every failure — including any raised exception — as a returned
string.  `now` stands for the formatted `datetime.now()` value. -/
def generate_image (replicate_available : Bool) (cfg : AgentcyConfig)
    (images_dir : String)
    (runOutcome : Nat → Except String (List String))
    (downloadOutcome : String → Except String Nat)
    (now : String) (prompt : String) : String :=
  if !replicate_available then
    "Image generation unavailable: replicate package not installed. Install with: pip install replicate"
  else if !pyTruthy cfg.replicate_api_token then
    "Image generation unavailable: REPLICATE_API_TOKEN not set"
  else
    match runOutcome 0 with
    | Except.error e => "Image generation error: " ++ e
    | Except.ok output =>
        if !output.isEmpty then
          let image_url := output.headD ""
          let current_time := now
          let safe_prompt := safePrompt prompt
          let filename := imageFilename images_dir safe_prompt current_time
          match downloadOutcome image_url with
          | Except.error e => "Image generation error: " ++ e
          | Except.ok status_code =>
              if status_code = 200 then "Image generated and saved: " ++ filename
              else "Image generated but download failed: " ++ image_url
        else "Image generation failed"

/-- `VisualContentTools.critique_image` (src/agentcy.py lines 292-319):
guard on package, token and file existence, run the LLaVA model (attempt 0
of the indexed oracle; the source makes exactly one attempt), concatenate
the streamed output items, and render every failure — including any raised
exception — as a returned string. -/
def critique_image (replicate_available : Bool) (cfg : AgentcyConfig)
    (fileExists : String → Bool)
    (runOutcome : Nat → Except String (List String))
    (image_path original_prompt : String) : String :=
  if !replicate_available then
    "Image critique unavailable: replicate package not installed. Install with: pip install replicate"
  else if !pyTruthy cfg.replicate_api_token then
    "Image critique unavailable: REPLICATE_API_TOKEN not set"
  else if !fileExists image_path then
    "Image file not found: " ++ image_path
  else
    match runOutcome 0 with
    | Except.error e => "Image critique error: " ++ e
    | Except.ok output => String.join output

/-- The termination predicate the repository installs on its user proxy
(src/agentcy.py line 617): the message content contains the literal
substring `"TERMINATE"`. -/
def is_termination_msg (content : String) : Bool :=
  containsSubstr "TERMINATE" content

/-- The capability names registered in the user proxy's `function_map`
(src/agentcy.py lines 621-625). -/
def function_map_names : List String :=
  ["research", "generate_image", "critique_image"]

/-- The `max_round` the repository configures on its `GroupChat`
(src/agentcy.py line 644). -/
def configured_max_rounds : Nat := 25

/-- Modelled from the spec: the error taxonomy of §7 (the round loop and
dispatch live in the external AG2 framework, absent from src/). -/
inductive ErrorKind
  | UpstreamFailure
  | UnknownCapability
  | Timeout
  | TerminationAmbiguity
  | ConfigurationError
  deriving DecidableEq, Repr

/-- Modelled from the spec: a ToolCallResult `{ok, payload}` of §3, with the
`kind` tag of the §7 taxonomy carried on failures (§8 speaks of results of
kind UnknownCapability / Timeout). -/
structure ToolCallResult where
  ok : Bool
  kind : Option ErrorKind
  payload : String
  deriving DecidableEq, Repr

/-- Modelled from the spec: a tool-call request `{name, arguments}` carried
on a Message (§3). -/
structure ToolCall where
  name : String
  arguments : List (String × String)
  deriving DecidableEq, Repr

/-- Modelled from the spec: a Message of §3 — sender, content, optional
tool-call request and optional tool result; append-only once in a
Conversation. -/
structure Message where
  sender : String
  content : String
  tool_call : Option ToolCall := none
  tool_result : Option ToolCallResult := none
  deriving DecidableEq, Repr

/-- Modelled from the spec: the Conversation of §3 — the ordered message
log plus the round counter and the round bound (25 in the source's
`GroupChat`). -/
structure Conversation where
  messages : List Message
  round_count : Nat
  max_rounds : Nat
  deriving DecidableEq, Repr

/-- The latest appended message of a conversation (the last element of the
append-only log). -/
def latestMessage (c : Conversation) : Option Message :=
  c.messages.getLast?

/-- Modelled from the spec: sentinel termination (§3 TerminationState,
§4.1(i)) — the latest appended message's content satisfies the source's
`is_termination_msg` predicate. -/
def sentinelTerminated (c : Conversation) : Bool :=
  match latestMessage c with
  | some m => is_termination_msg m.content
  | none => false

/-- Modelled from the spec: the termination condition evaluated at the end
of each round (§4.1): sentinel on the latest message, or
`round_count` having reached `max_rounds`. -/
def checkTermination (c : Conversation) : Bool :=
  sentinelTerminated c || decide (c.max_rounds ≤ c.round_count)

/-- Modelled from the spec: one round of the Orchestrator loop (§4.1) with
the participant responses scripted — `stub n` is the message list appended
during the round with counter value `n` (at least the chosen speaker's
reply, possibly also a tool result); the round counter increments by one. -/
def stepRound (stub : Nat → List Message) (c : Conversation) : Conversation :=
  { c with
    messages := c.messages ++ stub c.round_count
    round_count := c.round_count + 1 }

/-- Modelled from the spec: the Orchestrator round loop (§4.1) — exit as
soon as termination is detected, otherwise run a round and continue; `fuel`
is a structural bound on the remaining iterations. -/
def runLoop (stub : Nat → List Message) : Nat → Conversation → Conversation
  | 0, c => c
  | fuel + 1, c =>
      if checkTermination c then c else runLoop stub fuel (stepRound stub c)

/-- Modelled from the spec: a full session (§4.1 `start`): the conversation
begins with the initial messages and a zero round counter, and the loop runs
with fuel `max_rounds`, which the termination condition never lets it
exhaust early. -/
def runSession (stub : Nat → List Message) (init : List Message)
    (max_rounds : Nat) : Conversation :=
  runLoop stub max_rounds { messages := init, round_count := 0, max_rounds := max_rounds }

/-- Modelled from the spec: running one registered capability (§4.3) — the
capability is attempted exactly once (attempt 0 of the indexed oracle); a
raised failure is converted into an `ok := false` result of kind
UpstreamFailure whose payload carries the failure text. -/
def runCapability (f : Nat → List String → Except String String)
    (args : List String) : ToolCallResult :=
  match f 0 args with
  | Except.ok s => { ok := true, kind := none, payload := s }
  | Except.error e =>
      { ok := false, kind := some ErrorKind.UpstreamFailure,
        payload := "Tool call failed: " ++ e }

/-- Modelled from the spec: `ToolInvoker.invoke` (§4.3) — validate the tool
name against the registered capability map; an unregistered name yields an
`ok := false` result of kind UnknownCapability instead of throwing. -/
def invoke (caps : String → Option (Nat → List String → Except String String))
    (name : String) (args : List String) : ToolCallResult :=
  match caps name with
  | none =>
      { ok := false, kind := some ErrorKind.UnknownCapability,
        payload := "UnknownCapability: " ++ name }
  | some f => runCapability f args

/-- Modelled from the spec: the capability map the proxy participant
registers, keyed exactly by the source's `function_map` names
(src/agentcy.py lines 621-625). -/
def proxyCapabilities
    (research generateImage critiqueImage : Nat → List String → Except String String) :
    String → Option (Nat → List String → Except String String) :=
  fun name =>
    if name = "research" then some research
    else if name = "generate_image" then some generateImage
    else if name = "critique_image" then some critiqueImage
    else none

/-- Modelled from the spec: a ToolCallResult appended to the conversation as
a normal message attributed to the proxy participant (§4.1(c)). -/
def resultMessage (proxyName : String) (r : ToolCallResult) : Message :=
  { sender := proxyName, content := r.payload, tool_result := some r }

/-- Modelled from the spec: the deterministic round-robin fallback speaker
selector (§4.2): the registry entry after the previous speaker in registry
order, wrapping around; the registry head when there is no usable previous
speaker. -/
def roundRobinFallback (registry : List String) (previous_speaker : Option String) :
    Option String :=
  match previous_speaker with
  | none => registry.head?
  | some p =>
      match registry.findIdx? (fun a => a = p) with
      | some i => registry[(i + 1) % registry.length]?
      | none => registry.head?

/-- Modelled from the spec: resolving the manager's named choice against the
registered participant set (§4.1(a)). -/
def resolveSpeaker (registry : List String) (answer : String) : Option String :=
  if registry.contains answer then some answer else none

/-- Modelled from the spec: per-round speaker selection (§4.1(a), §4.2) —
use the LLM-backed manager's answer when it resolves to a registered
participant, otherwise fall back to the deterministic round-robin policy;
the manager's answer is the only non-deterministic input. -/
def selectSpeaker (registry : List String) (history : List Message)
    (previous_speaker : Option String) (managerAnswer : String) : Option String :=
  match resolveSpeaker registry managerAnswer with
  | some n => some n
  | none => roundRobinFallback registry previous_speaker

/-- Modelled from the spec: the session entry point guarded by
configuration validation (§6, §7) — construction of the core happens before
any Conversation exists, and the round loop itself consults no
configuration. -/
def runFullSession (cfg : AgentcyConfig) (stub : Nat → List Message)
    (init : List Message) (max_rounds : Nat) : Except String Conversation :=
  (AgentcyCore.init cfg).map (fun _ => runSession stub init max_rounds)

/-! ## Helper lemmas -/

theorem validate_eq_and (cfg : AgentcyConfig) :
    cfg.validate = (pyTruthy cfg.openai_api_key && pyTruthy cfg.serper_api_key) := by
  cases h1 : pyTruthy cfg.openai_api_key <;>
    cases h2 : pyTruthy cfg.serper_api_key <;>
      simp [AgentcyConfig.validate, List.filter, h1, h2]

theorem runLoop_succ (stub : Nat → List Message) (fuel : Nat) (c : Conversation) :
    runLoop stub (fuel + 1) c =
      if checkTermination c then c else runLoop stub fuel (stepRound stub c) := rfl

theorem runLoop_of_term (stub : Nat → List Message) (fuel : Nat) (c : Conversation)
    (h : checkTermination c = true) : runLoop stub fuel c = c := by
  cases fuel with
  | zero => rfl
  | succ fuel => rw [runLoop_succ, if_pos h]

theorem runLoop_of_not_term (stub : Nat → List Message) (fuel : Nat) (c : Conversation)
    (h : checkTermination c = false) :
    runLoop stub (fuel + 1) c = runLoop stub fuel (stepRound stub c) := by
  rw [runLoop_succ, if_neg]
  simp [h]

theorem runLoop_max_rounds (stub : Nat → List Message) (fuel : Nat) (c : Conversation) :
    (runLoop stub fuel c).max_rounds = c.max_rounds := by
  induction fuel generalizing c with
  | zero => rfl
  | succ fuel ih =>
      by_cases h : checkTermination c = true
      · rw [runLoop_of_term stub _ _ h]
      · rw [runLoop_of_not_term stub _ _ (by simpa using h)]
        exact ih _

theorem checkTermination_false_lt (c : Conversation) (h : checkTermination c = false) :
    c.round_count < c.max_rounds := by
  simp only [checkTermination, Bool.or_eq_false_iff, decide_eq_false_iff_not,
    Nat.not_le] at h
  exact h.2

theorem runLoop_term_or_fuel (stub : Nat → List Message) (fuel : Nat) (c : Conversation) :
    checkTermination (runLoop stub fuel c) = true ∨
      (runLoop stub fuel c).round_count = c.round_count + fuel := by
  induction fuel generalizing c with
  | zero => exact Or.inr rfl
  | succ fuel ih =>
      by_cases h : checkTermination c = true
      · rw [runLoop_of_term stub _ _ h]
        exact Or.inl h
      · rw [runLoop_of_not_term stub _ _ (by simpa using h)]
        rcases ih (stepRound stub c) with h1 | h1
        · exact Or.inl h1
        · refine Or.inr ?_
          rw [h1]
          simp [stepRound]
          omega

theorem checkTermination_runSession (stub : Nat → List Message) (init : List Message)
    (max_rounds : Nat) : checkTermination (runSession stub init max_rounds) = true := by
  unfold runSession
  rcases runLoop_term_or_fuel stub max_rounds
      { messages := init, round_count := 0, max_rounds := max_rounds } with h | h
  · exact h
  · simp only [checkTermination, Bool.or_eq_true, decide_eq_true_eq]
    refine Or.inr ?_
    rw [h, runLoop_max_rounds]
    show max_rounds ≤ 0 + max_rounds
    omega

theorem sentinelTerminated_of_forall (l : List Message) (rc mr : Nat)
    (h : ∀ m ∈ l, is_termination_msg m.content = false) :
    sentinelTerminated { messages := l, round_count := rc, max_rounds := mr } = false := by
  unfold sentinelTerminated latestMessage
  cases hl : l.getLast? with
  | none => rfl
  | some m =>
      simp only
      exact h m (List.mem_of_mem_getLast? hl)

/-! ## C5: configuration errors happen at setup, never mid-session -/

/-- C5: a missing required external credential (OPENAI_API_KEY or
SERPER_API_KEY) makes session construction fail with a configuration error,
and it fails only then; once construction has succeeded, the session result
is the config-free round loop — no configuration check happens during the
round loop, so a configuration error can never arise mid-session. -/
theorem claim_C5 (cfg : AgentcyConfig) :
    ((∃ e, AgentcyCore.init cfg = Except.error e) ↔
      ¬(pyTruthy cfg.openai_api_key = true ∧ pyTruthy cfg.serper_api_key = true))
    ∧ (∀ stub init max_rounds, cfg.validate = true →
        runFullSession cfg stub init max_rounds = Except.ok (runSession stub init max_rounds))
    ∧ (cfg.validate = false → ∀ stub init max_rounds,
        runFullSession cfg stub init max_rounds =
          Except.error "Configuration validation failed") := by
  refine ⟨⟨?_, ?_⟩, ?_, ?_⟩
  · rintro ⟨e, he⟩ ⟨h1, h2⟩
    unfold AgentcyCore.init at he
    rw [validate_eq_and, h1, h2] at he
    simp at he
  · intro hmiss
    refine ⟨"Configuration validation failed", ?_⟩
    unfold AgentcyCore.init
    rw [validate_eq_and]
    cases h1 : pyTruthy cfg.openai_api_key <;> cases h2 : pyTruthy cfg.serper_api_key <;>
      simp_all
  · intro stub init max_rounds hv
    unfold runFullSession AgentcyCore.init
    rw [hv]
    rfl
  · intro hv stub init max_rounds
    unfold runFullSession AgentcyCore.init
    rw [hv]
    rfl

theorem claim_C5_witness :
    (∃ e, AgentcyCore.init ⟨none, some "sk-serper", none, none⟩ = Except.error e)
    ∧ runFullSession ⟨some "sk-openai", some "sk-serper", none, none⟩ (fun _ => []) [] 0 =
        Except.ok (runSession (fun _ => []) [] 0) := by
  constructor
  · exact (claim_C5 ⟨none, some "sk-serper", none, none⟩).1.mpr (by decide)
  · exact (claim_C5 ⟨some "sk-openai", some "sk-serper", none, none⟩).2.1 _ _ _ (by decide)

/-! ## C6: deterministic fallback speaker selection -/

/-- C6: speaker selection is deterministic given identical message history
and participant registry — once the isolated LLM-backed manager answer fails
to resolve, the chosen speaker is the deterministic round-robin fallback,
which depends only on the registry and previous speaker; two runs with the
same registry (even with different histories or different unresolvable
manager answers) choose the same speaker. -/
theorem claim_C6 :
    (∀ (registry : List String) (history : List Message) prev answer,
        resolveSpeaker registry answer = none →
        selectSpeaker registry history prev answer = roundRobinFallback registry prev)
    ∧ (∀ (registry : List String) (history1 history2 : List Message) prev a1 a2,
        resolveSpeaker registry a1 = none → resolveSpeaker registry a2 = none →
        selectSpeaker registry history1 prev a1 = selectSpeaker registry history2 prev a2) := by
  constructor
  · intro registry history prev answer h
    unfold selectSpeaker
    rw [h]
  · intro registry history1 history2 prev a1 a2 h1 h2
    unfold selectSpeaker
    rw [h1, h2]

theorem claim_C6_witness :
    selectSpeaker ["User_Proxy", "Agency_Manager"] [] (some "User_Proxy") "Bogus_Agent" =
        roundRobinFallback ["User_Proxy", "Agency_Manager"] (some "User_Proxy")
    ∧ selectSpeaker ["User_Proxy", "Agency_Manager"]
          [{ sender := "a", content := "x" }] (some "User_Proxy") "Bogus_Agent" =
        selectSpeaker ["User_Proxy", "Agency_Manager"] [] (some "User_Proxy") "Other_Bogus" := by
  constructor
  · exact claim_C6.1 _ _ _ _ (by decide)
  · exact claim_C6.2 _ _ _ _ _ _ (by decide) (by decide)

/-! ## C7: no automatic retry of capability calls -/

/-- C7: no capability call is ever retried automatically — each embedded
tool consults only attempt 0 of its attempt-indexed external-call oracle, so
the result never depends on the outcome any further attempt would have had,
even when attempt 0 fails; likewise the spec-modelled invoker runs a
capability at most once per tool-call message. -/
theorem claim_C7 :
    (∀ (o1 o2 : Nat → Except String SearchResponse), o1 0 = o2 0 →
        search o1 = search o2)
    ∧ (∀ (o1 o2 : Nat → Except String SearchResponse) scrape now query, o1 0 = o2 0 →
        advanced_research o1 scrape now query = advanced_research o2 scrape now query)
    ∧ (∀ ra cfg images_dir dl now prompt (r1 r2 : Nat → Except String (List String)),
        r1 0 = r2 0 →
        generate_image ra cfg images_dir r1 dl now prompt =
          generate_image ra cfg images_dir r2 dl now prompt)
    ∧ (∀ ra cfg fileExists (r1 r2 : Nat → Except String (List String)) path oprompt,
        r1 0 = r2 0 →
        critique_image ra cfg fileExists r1 path oprompt =
          critique_image ra cfg fileExists r2 path oprompt)
    ∧ (∀ (f1 f2 : Nat → List String → Except String String) args, f1 0 = f2 0 →
        runCapability f1 args = runCapability f2 args) := by
  refine ⟨?_, ?_, ?_, ?_, ?_⟩
  · intro o1 o2 h
    unfold search
    rw [h]
  · intro o1 o2 scrape now query h
    unfold advanced_research search
    rw [h]
  · intro ra cfg images_dir dl now prompt r1 r2 h
    unfold generate_image
    rw [h]
  · intro ra cfg fileExists r1 r2 path oprompt h
    unfold critique_image
    rw [h]
  · intro f1 f2 args h
    unfold runCapability
    rw [h]

theorem claim_C7_witness :
    search (fun n => if n = 0 then Except.error "boom" else
        Except.ok { error := none, organic := none, relatedSearches := none }) =
      search (fun _ => Except.error "boom")
    ∧ runCapability
          (fun n _ => if n = 0 then Except.error "down" else Except.ok "retried")
          ["q"] =
        runCapability (fun _ _ => Except.error "down") ["q"] := by
  constructor
  · exact claim_C7.1 _ _ rfl
  · exact claim_C7.2.2.2.2 _ _ _ rfl

/-! ## C8: scrape_basic is total with the documented result shape -/

/-- C8: scrape_basic never raises — it is total on every url, returning the
extracted page text unchanged on HTTP 200 when the text has at most 8000
characters and its summarization otherwise, the string `"Error: HTTP "`
followed by the status code on any other status, and the string
`"Scraping failed: "` followed by the exception text when the underlying
request raises. -/
theorem claim_C8 (cfg : AgentcyConfig)
    (bro dir : String → Except String HttpTextResponse)
    (summarize : String → String) (url : String) :
    (∀ e, (if pyTruthy cfg.browserless_api_key then bro url else dir url) =
        Except.error e →
        scrape_basic cfg bro dir summarize url = "Scraping failed: " ++ e)
    ∧ (∀ resp, (if pyTruthy cfg.browserless_api_key then bro url else dir url) =
        Except.ok resp →
        (resp.status_code = 200 → resp.text.length ≤ 8000 →
            scrape_basic cfg bro dir summarize url = resp.text)
        ∧ (resp.status_code = 200 → resp.text.length > 8000 →
            scrape_basic cfg bro dir summarize url = summarize resp.text)
        ∧ (resp.status_code ≠ 200 →
            scrape_basic cfg bro dir summarize url =
              "Error: HTTP " ++ toString resp.status_code)) := by
  constructor
  · intro e h
    simp only [scrape_basic, h]
  · intro resp h
    refine ⟨?_, ?_, ?_⟩
    · intro h200 hlen
      simp only [scrape_basic, h]
      rw [if_pos h200, if_neg (by omega)]
    · intro h200 hlen
      simp only [scrape_basic, h]
      rw [if_pos h200, if_pos hlen]
    · intro hne
      simp only [scrape_basic, h]
      rw [if_neg hne]

theorem claim_C8_witness :
    scrape_basic ⟨none, none, none, none⟩ (fun _ => Except.error "nope")
        (fun _ => Except.ok ⟨404, "short text"⟩) (fun t => "SUMMARY: " ++ t) "http://x" =
      "Error: HTTP 404"
    ∧ scrape_basic ⟨none, none, some "bk", none⟩ (fun _ => Except.error "boom")
        (fun _ => Except.ok ⟨200, "short text"⟩) (fun t => "SUMMARY: " ++ t) "http://x" =
      "Scraping failed: " ++ "boom"
    ∧ scrape_basic ⟨none, none, none, none⟩ (fun _ => Except.error "nope")
        (fun _ => Except.ok ⟨200, "short text"⟩) (fun t => "SUMMARY: " ++ t) "http://x" =
      "short text" := by
  refine ⟨?_, ?_, ?_⟩
  · exact ((claim_C8 ⟨none, none, none, none⟩ (fun _ => Except.error "nope")
      (fun _ => Except.ok ⟨404, "short text"⟩) (fun t => "SUMMARY: " ++ t)
      "http://x").2 ⟨404, "short text"⟩ rfl).2.2 (by decide)
  · exact (claim_C8 ⟨none, none, some "bk", none⟩ (fun _ => Except.error "boom")
      (fun _ => Except.ok ⟨200, "short text"⟩) (fun t => "SUMMARY: " ++ t)
      "http://x").1 "boom" rfl
  · exact ((claim_C8 ⟨none, none, none, none⟩ (fun _ => Except.error "nope")
      (fun _ => Except.ok ⟨200, "short text"⟩) (fun t => "SUMMARY: " ++ t)
      "http://x").2 ⟨200, "short text"⟩ rfl).1 rfl (by decide)

/-! ## C4: unknown capability names -/

/-- C4: a tool-call request whose name is outside the proxy's registered
capability set (research, generate_image, critique_image) yields an
`ok := false` result of kind UnknownCapability — the invoker is total, so
nothing is thrown out of the orchestrator — and the round loop continues:
when termination has not been detected, the loop proceeds with the next
round rather than aborting. -/
theorem claim_C4 :
    (∀ research generateImage critiqueImage name args,
        ¬ name ∈ function_map_names →
        invoke (proxyCapabilities research generateImage critiqueImage) name args =
          { ok := false, kind := some ErrorKind.UnknownCapability,
            payload := "UnknownCapability: " ++ name })
    ∧ (∀ stub fuel c, checkTermination c = false →
        runLoop stub (fuel + 1) c = runLoop stub fuel (stepRound stub c)) := by
  constructor
  · intro research generateImage critiqueImage name args h
    simp only [function_map_names, List.mem_cons, List.not_mem_nil, or_false,
      not_or] at h
    obtain ⟨h1, h2, h3⟩ := h
    unfold invoke proxyCapabilities
    rw [if_neg h1, if_neg h2, if_neg h3]
  · exact fun stub fuel c h => runLoop_of_not_term stub fuel c h

theorem claim_C4_witness :
    invoke (proxyCapabilities (fun _ _ => Except.ok "r") (fun _ _ => Except.ok "g")
          (fun _ _ => Except.ok "c")) "make_coffee" [] =
      { ok := false, kind := some ErrorKind.UnknownCapability,
        payload := "UnknownCapability: make_coffee" }
    ∧ runLoop (fun _ => [{ sender := "Agency_Manager", content := "hello" }]) 1
          { messages := [], round_count := 0, max_rounds := 25 } =
        runLoop (fun _ => [{ sender := "Agency_Manager", content := "hello" }]) 0
          (stepRound (fun _ => [{ sender := "Agency_Manager", content := "hello" }])
            { messages := [], round_count := 0, max_rounds := 25 }) := by
  constructor
  · exact claim_C4.1 _ _ _ _ _ (by decide)
  · exact claim_C4.2 _ 0 _ (by decide)

/-! ## C3: failed tool calls become messages, not exceptions -/

/-- C3: a tool call whose underlying operation raises is answered with a
human-readable failure value instead of a propagated exception — each
embedded tool is total and returns the exception text inside its result
string, the spec-modelled invoker converts a raising capability into an
`ok := false` result — the result is appended as a normal message, the round
loop continues past a non-terminating round, and a session only ever ends
with the termination condition satisfied. -/
theorem claim_C3 :
    (∀ (postOutcome : Nat → Except String SearchResponse) scrape now query e,
        postOutcome 0 = Except.error e →
        advanced_research postOutcome scrape now query =
          "Research failed: " ++ ("Search failed: " ++ e))
    ∧ (∀ cfg images_dir (runOutcome : Nat → Except String (List String)) dl now prompt e,
        pyTruthy cfg.replicate_api_token = true →
        runOutcome 0 = Except.error e →
        generate_image true cfg images_dir runOutcome dl now prompt =
          "Image generation error: " ++ e)
    ∧ (∀ cfg fileExists (runOutcome : Nat → Except String (List String)) path oprompt e,
        pyTruthy cfg.replicate_api_token = true →
        fileExists path = true →
        runOutcome 0 = Except.error e →
        critique_image true cfg fileExists runOutcome path oprompt =
          "Image critique error: " ++ e)
    ∧ (∀ (f : Nat → List String → Except String String) args e,
        f 0 args = Except.error e →
        runCapability f args =
          { ok := false, kind := some ErrorKind.UpstreamFailure,
            payload := "Tool call failed: " ++ e })
    ∧ (∀ stub fuel c, checkTermination c = false →
        runLoop stub (fuel + 1) c = runLoop stub fuel (stepRound stub c))
    ∧ (∀ stub init max_rounds,
        checkTermination (runSession stub init max_rounds) = true) := by
  refine ⟨?_, ?_, ?_, ?_, ?_, ?_⟩
  · intro postOutcome scrape now query e h
    simp only [advanced_research, search, h]
  · intro cfg images_dir runOutcome dl now prompt e ht h
    simp only [generate_image, ht, h, Bool.not_true, Bool.false_eq_true, if_false]
  · intro cfg fileExists runOutcome path oprompt e ht hf h
    simp only [critique_image, ht, hf, h, Bool.not_true, Bool.false_eq_true, if_false]
  · intro f args e h
    unfold runCapability
    rw [h]
  · exact fun stub fuel c h => runLoop_of_not_term stub fuel c h
  · exact fun stub init max_rounds => checkTermination_runSession stub init max_rounds

theorem claim_C3_witness :
    advanced_research (fun _ => Except.error "connection refused")
        (fun _ => "") "2024" "q" =
      "Research failed: " ++ ("Search failed: " ++ "connection refused")
    ∧ generate_image true ⟨none, none, none, some "tok"⟩ "output/images"
        (fun _ => Except.error "rate limited") (fun _ => Except.ok 200) "t" "p" =
      "Image generation error: " ++ "rate limited"
    ∧ critique_image true ⟨none, none, none, some "tok"⟩ (fun _ => true)
        (fun _ => Except.error "model gone") "img.png" "p" =
      "Image critique error: " ++ "model gone"
    ∧ runCapability (fun _ _ => Except.error "boom") [] =
      { ok := false, kind := some ErrorKind.UpstreamFailure,
        payload := "Tool call failed: " ++ "boom" }
    ∧ checkTermination (runSession (fun _ => [{ sender := "A", content := "w" }]) [] 25) =
        true := by
  refine ⟨?_, ?_, ?_, ?_, ?_⟩
  · exact claim_C3.1 _ _ _ _ _ rfl
  · exact claim_C3.2.1 _ _ _ _ _ _ _ (by decide) rfl
  · exact claim_C3.2.2.1 _ _ _ _ _ _ (by decide) rfl rfl
  · exact claim_C3.2.2.2.1 _ _ _ rfl
  · exact claim_C3.2.2.2.2.2 _ _ _

/-! ## C10: image filenames are sanitized -/

/-- C10: the filename under which generate_image saves a downloaded image is
the configured images directory joined with the sanitized prompt fragment,
an underscore, the timestamp, and the `.png` extension; every character of
the sanitized fragment is an alphanumeric, space, hyphen or underscore and
comes from the first 30 characters of the prompt, so no other character of
the prompt reaches the filesystem path. -/
theorem claim_C10 :
    (∀ prompt : String, (safePrompt prompt).data.all (fun c =>
        (c.isAlphanum || c = ' ' || c = '-' || c = '_') &&
          decide (c ∈ prompt.data.take 30)) = true)
    ∧ (∀ cfg images_dir (runOutcome : Nat → Except String (List String)) dl now prompt
          output,
        pyTruthy cfg.replicate_api_token = true →
        runOutcome 0 = Except.ok output →
        output ≠ [] →
        dl (output.headD "") = Except.ok 200 →
        generate_image true cfg images_dir runOutcome dl now prompt =
          "Image generated and saved: " ++
            imageFilename images_dir (safePrompt prompt) now)
    ∧ (∀ images_dir safe now, imageFilename images_dir safe now =
        images_dir ++ "/" ++ safe ++ "_" ++ now ++ ".png") := by
  refine ⟨?_, ?_, ?_⟩
  · intro prompt
    rw [List.all_eq_true]
    intro c hc
    have hc2 : c ∈ ((prompt.data.take 30).filter (fun c =>
        c.isAlphanum || decide (c = ' ') || decide (c = '-') || decide (c = '_'))) := by
      have h1 : c ∈ (((prompt.data.take 30).filter (fun c =>
          c.isAlphanum || decide (c = ' ') || decide (c = '-') ||
            decide (c = '_'))).reverse.dropWhile Char.isWhitespace) := by
        simpa [safePrompt, pyRstrip] using hc
      exact List.mem_reverse.mp (List.dropWhile_subset _ h1)
    obtain ⟨hmem, hp⟩ := List.mem_filter.mp hc2
    simp only [Bool.and_eq_true, decide_eq_true_eq]
    exact ⟨by simpa using hp, hmem⟩
  · intro cfg images_dir runOutcome dl now prompt output ht hrun hout hdl
    have hie : output.isEmpty = false := by
      cases output with
      | nil => exact absurd rfl hout
      | cons a l => rfl
    have hdl2 : dl (output.head?.getD "") = Except.ok 200 := by simpa using hdl
    simp [generate_image, ht, hrun, hie, hdl2]
  · intro images_dir safe now
    rfl

theorem claim_C10_witness :
    generate_image true ⟨none, none, none, some "tok"⟩ "output/images"
        (fun _ => Except.ok ["http://img.example/1.png"]) (fun _ => Except.ok 200)
        "20240101120000" "Sunset / over: the sea!" =
      "Image generated and saved: " ++
        imageFilename "output/images" (safePrompt "Sunset / over: the sea!")
          "20240101120000" := by
  exact claim_C10.2.1 _ _ _ _ _ _ _ (by decide) rfl (by decide) rfl

/-! ## C1: sentinel termination -/

/-- C1: the session terminates by sentinel exactly when the latest appended
message's content contains the literal substring "TERMINATE" (plain
substring decomposition, regardless of token boundaries); and for every
scripted history whose first two rounds are sentinel-free but whose round-3
batch ends in a message containing the sentinel, the session ends at round 3
even with max_rounds 25. -/
theorem claim_C1 :
    (∀ c : Conversation, sentinelTerminated c = true ↔
        ∃ m pre post, latestMessage c = some m ∧
          pre ++ "TERMINATE".data ++ post = m.content.data)
    ∧ (∀ (stub : Nat → List Message) (init : List Message),
        (∀ m, m ∈ init ++ stub 0 ++ stub 1 → is_termination_msg m.content = false) →
        (∃ m, (stub 2).getLast? = some m ∧ is_termination_msg m.content = true) →
        (runSession stub init 25).round_count = 3
          ∧ sentinelTerminated (runSession stub init 25) = true) := by
  constructor
  · intro c
    unfold sentinelTerminated
    cases h : latestMessage c with
    | none => simp
    | some m =>
        simp only [is_termination_msg, containsSubstr, decide_eq_true_eq]
        constructor
        · intro hinf
          obtain ⟨s, t, hst⟩ := hinf
          exact ⟨m, s, t, rfl, hst⟩
        · rintro ⟨m2, s, t, hm2, hst⟩
          obtain rfl : m = m2 := Option.some.inj hm2
          exact ⟨s, t, hst⟩
  · intro stub init hpre hsent
    obtain ⟨m, hm, hterm⟩ := hsent
    have hne : stub 2 ≠ [] := by
      intro hnil
      rw [hnil] at hm
      simp at hm
    have hs0 : sentinelTerminated ⟨init, 0, 25⟩ = false :=
      sentinelTerminated_of_forall _ _ _
        (fun m2 hm2 => hpre m2 (List.mem_append_left _ (List.mem_append_left _ hm2)))
    have h0 : checkTermination ⟨init, 0, 25⟩ = false := by
      simp only [checkTermination, hs0, Bool.false_or]
      rfl
    have hs1 : sentinelTerminated ⟨init ++ stub 0, 1, 25⟩ = false :=
      sentinelTerminated_of_forall _ _ _
        (fun m2 hm2 => hpre m2 (List.mem_append_left _ hm2))
    have h1 : checkTermination ⟨init ++ stub 0, 1, 25⟩ = false := by
      simp only [checkTermination, hs1, Bool.false_or]
      rfl
    have hs2 : sentinelTerminated ⟨init ++ stub 0 ++ stub 1, 2, 25⟩ = false :=
      sentinelTerminated_of_forall _ _ _ (fun m2 hm2 => hpre m2 hm2)
    have h2 : checkTermination ⟨init ++ stub 0 ++ stub 1, 2, 25⟩ = false := by
      simp only [checkTermination, hs2, Bool.false_or]
      rfl
    have hlast : (init ++ stub 0 ++ stub 1 ++ stub 2).getLast? = some m := by
      rw [List.getLast?_append_of_ne_nil _ hne]
      exact hm
    have hs3 : sentinelTerminated ⟨init ++ stub 0 ++ stub 1 ++ stub 2, 3, 25⟩ = true := by
      unfold sentinelTerminated latestMessage
      rw [hlast]
      exact hterm
    have h3 : checkTermination ⟨init ++ stub 0 ++ stub 1 ++ stub 2, 3, 25⟩ = true := by
      simp only [checkTermination, hs3, Bool.true_or]
    have e0 : runLoop stub 25 ⟨init, 0, 25⟩ =
        runLoop stub 24 (stepRound stub ⟨init, 0, 25⟩) :=
      runLoop_of_not_term stub 24 _ h0
    have e1 : runLoop stub 24 (stepRound stub ⟨init, 0, 25⟩) =
        runLoop stub 23 (stepRound stub (stepRound stub ⟨init, 0, 25⟩)) :=
      runLoop_of_not_term stub 23 _ h1
    have e2 : runLoop stub 23 (stepRound stub (stepRound stub ⟨init, 0, 25⟩)) =
        runLoop stub 22
          (stepRound stub (stepRound stub (stepRound stub ⟨init, 0, 25⟩))) :=
      runLoop_of_not_term stub 22 _ h2
    have e3 : runLoop stub 22
        (stepRound stub (stepRound stub (stepRound stub ⟨init, 0, 25⟩))) =
        stepRound stub (stepRound stub (stepRound stub ⟨init, 0, 25⟩)) :=
      runLoop_of_term stub 22 _ h3
    have efin : runSession stub init 25 =
        stepRound stub (stepRound stub (stepRound stub ⟨init, 0, 25⟩)) := by
      unfold runSession
      rw [e0, e1, e2, e3]
    rw [efin]
    exact ⟨rfl, hs3⟩

theorem claim_C1_witness :
    (runSession
        (fun n => [Message.mk "Agency_Manager"
          (if n = 2 then "All objectives completed. TERMINATE" else "working on it")
          none none])
        [Message.mk "User_Proxy" "CREATIVE PROJECT BRIEF" none none]
        25).round_count = 3 := by
  exact (claim_C1.2 _ _ (by decide)
    ⟨Message.mk "Agency_Manager" "All objectives completed. TERMINATE" none none,
      by decide, by decide⟩).1

/-! ## C2: round counter invariants -/

theorem runLoop_round_le (stub : Nat → List Message) (fuel : Nat) :
    ∀ c : Conversation, c.round_count ≤ c.max_rounds →
      (runLoop stub fuel c).round_count ≤ c.max_rounds := by
  induction fuel with
  | zero => exact fun c h => h
  | succ fuel ih =>
      intro c h
      by_cases hc : checkTermination c = true
      · rw [runLoop_of_term stub _ _ hc]
        exact h
      · have hc2 : checkTermination c = false := by simpa using hc
        rw [runLoop_of_not_term stub _ _ hc2]
        have hlt := checkTermination_false_lt c hc2
        exact ih (stepRound stub c) (by simp [stepRound]; omega)

theorem runLoop_len_ge (stub : Nat → List Message) (fuel : Nat)
    (hstub : ∀ n, stub n ≠ []) :
    ∀ c : Conversation, c.round_count ≤ c.messages.length →
      (runLoop stub fuel c).round_count ≤ (runLoop stub fuel c).messages.length := by
  induction fuel with
  | zero => exact fun c h => h
  | succ fuel ih =>
      intro c h
      by_cases hc : checkTermination c = true
      · rw [runLoop_of_term stub _ _ hc]
        exact h
      · have hc2 : checkTermination c = false := by simpa using hc
        rw [runLoop_of_not_term stub _ _ hc2]
        have hp : 0 < (stub c.round_count).length :=
          List.length_pos.mpr (hstub c.round_count)
        exact ih (stepRound stub c) (by simp [stepRound]; omega)

/-- C2: the round counter increases by exactly 1 per completed round, no
round executes once termination is detected, the counter never exceeds the
configured maximum (in particular at termination of a full session), and —
since every round appends at least the speaker's reply — the message count
always dominates the round counter. -/
theorem claim_C2 :
    (∀ stub (c : Conversation), (stepRound stub c).round_count = c.round_count + 1)
    ∧ (∀ stub fuel (c : Conversation), checkTermination c = true →
        runLoop stub fuel c = c)
    ∧ (∀ stub fuel (c : Conversation), c.round_count ≤ c.max_rounds →
        (runLoop stub fuel c).round_count ≤ c.max_rounds)
    ∧ (∀ stub fuel (c : Conversation), (∀ n, stub n ≠ []) →
        c.round_count ≤ c.messages.length →
        (runLoop stub fuel c).round_count ≤ (runLoop stub fuel c).messages.length)
    ∧ (∀ stub init max_rounds,
        (runSession stub init max_rounds).round_count ≤ max_rounds) := by
  refine ⟨?_, ?_, ?_, ?_, ?_⟩
  · intro stub c
    rfl
  · exact fun stub fuel c h => runLoop_of_term stub fuel c h
  · exact fun stub fuel c h => runLoop_round_le stub fuel c h
  · exact fun stub fuel c hstub h => runLoop_len_ge stub fuel hstub c h
  · intro stub init max_rounds
    exact runLoop_round_le stub max_rounds ⟨init, 0, max_rounds⟩ (Nat.zero_le _)

theorem claim_C2_witness :
    (stepRound (fun _ => [{ sender := "Agency_Manager", content := "plan" }])
        { messages := [], round_count := 0, max_rounds := 25 }).round_count = 0 + 1
    ∧ runLoop (fun _ => [{ sender := "Agency_Manager", content := "plan" }]) 7
        { messages := [{ sender := "User_Proxy", content := "done TERMINATE" }],
          round_count := 4, max_rounds := 25 } =
        { messages := [{ sender := "User_Proxy", content := "done TERMINATE" }],
          round_count := 4, max_rounds := 25 }
    ∧ (runLoop (fun _ => [{ sender := "Agency_Manager", content := "plan" }]) 30
        { messages := [], round_count := 0, max_rounds := 25 }).round_count ≤ 25
    ∧ (runLoop (fun _ => [{ sender := "Agency_Manager", content := "plan" }]) 30
        { messages := [], round_count := 0, max_rounds := 25 }).round_count ≤
      (runLoop (fun _ => [{ sender := "Agency_Manager", content := "plan" }]) 30
        { messages := [], round_count := 0, max_rounds := 25 }).messages.length
    ∧ (runSession (fun _ => [{ sender := "Agency_Manager", content := "plan" }])
        [] 25).round_count ≤ 25 := by
  refine ⟨claim_C2.1 _ _, claim_C2.2.1 _ _ _ (by decide), claim_C2.2.2.1 _ _ _ (by decide),
    claim_C2.2.2.2.1 _ _ _ (fun n => by simp) (by decide), claim_C2.2.2.2.2 _ _ _⟩

/-! ## C9: research report processing -/

theorem entryLines_congr (s1 s2 : String → String) (query : String) (i : Nat)
    (r : OrganicResult)
    (h : entryMatches query r = true → s1 (entryLink r) = s2 (entryLink r)) :
    entryLines s1 query i r = entryLines s2 query i r := by
  unfold entryLines
  by_cases hm : entryMatches query r = true
  · rw [hm]
    simp [h hm]
  · simp [hm]

theorem flatMap_entryLines_congr (s1 s2 : String → String) (query : String)
    (l : List OrganicResult)
    (h : ∀ r ∈ l, entryMatches query r = true → s1 (entryLink r) = s2 (entryLink r)) :
    l.enum.flatMap (fun p => entryLines s1 query p.1 p.2) =
      l.enum.flatMap (fun p => entryLines s2 query p.1 p.2) := by
  unfold List.flatMap
  congr 1
  apply List.map_congr_left
  intro p hp
  have hmem : p.2 ∈ l := by
    have h2 := List.mem_map_of_mem Prod.snd hp
    rwa [List.enum, List.enumFrom_map_snd] at h2
  exact entryLines_congr s1 s2 query p.1 p.2 (fun hm => h p.2 hmem hm)

/-- C9: the report of advanced_research processes at most the first five
organic entries (every entry beyond the fifth is irrelevant to the output),
the scrape result matters only for entries a whitespace-separated word of
the lowercased query matches in lowercased title or snippet, and scraped
content that is excluded by the failure test (starting with "Error" or
"Scraping failed") leaves an entry with exactly its base lines. -/
theorem claim_C9 :
    (∀ scrape now query er rel (l : List OrganicResult),
        researchReport scrape now query ⟨er, some l, rel⟩ =
          researchReport scrape now query ⟨er, some (l.take 5), rel⟩)
    ∧ (∀ (s1 s2 : String → String) now query (sr : SearchResponse),
        (∀ r ∈ (sr.organic.getD []).take 5, entryMatches query r = true →
            s1 (entryLink r) = s2 (entryLink r)) →
        researchReport s1 now query sr = researchReport s2 now query sr)
    ∧ (∀ scrape query i r, entryMatches query r = false →
        entryLines scrape query i r = entryBaseLines i r)
    ∧ (∀ scrape query i r, includeScraped (scrape (entryLink r)) = false →
        entryLines scrape query i r = entryBaseLines i r) := by
  refine ⟨?_, ?_, ?_, ?_⟩
  · intro scrape now query er rel l
    unfold researchReport
    simp [List.take_take]
  · intro s1 s2 now query sr h
    unfold researchReport
    cases ho : sr.organic with
    | none => rfl
    | some organic =>
        rw [ho] at h
        simp only [Option.getD_some] at h
        have he := flatMap_entryLines_congr s1 s2 query (organic.take 5) h
        simp only [he]
  · intro scrape query i r h
    unfold entryLines
    rw [h]
    simp
  · intro scrape query i r h
    unfold entryLines
    by_cases hm : entryMatches query r = true
    · rw [hm]
      simp [h]
    · simp [hm]

theorem claim_C9_witness :
    (researchReport (fun _ => "stuff") "2024" "lean"
        ⟨none, some [⟨some "Lean theorem proving", some "s", some "http://a"⟩,
          ⟨some "Cooking pasta", some "food", some "http://b"⟩,
          ⟨some "Lean theorem proving", some "s", some "http://a"⟩,
          ⟨some "Cooking pasta", some "food", some "http://b"⟩,
          ⟨some "Lean theorem proving", some "s", some "http://a"⟩,
          ⟨some "Cooking pasta", some "food", some "http://b"⟩], none⟩ =
      researchReport (fun _ => "stuff") "2024" "lean"
        ⟨none, some ([⟨some "Lean theorem proving", some "s", some "http://a"⟩,
          ⟨some "Cooking pasta", some "food", some "http://b"⟩,
          ⟨some "Lean theorem proving", some "s", some "http://a"⟩,
          ⟨some "Cooking pasta", some "food", some "http://b"⟩,
          ⟨some "Lean theorem proving", some "s", some "http://a"⟩,
          ⟨some "Cooking pasta", some "food", some "http://b"⟩].take 5), none⟩)
    ∧ (researchReport (fun u => "X" ++ u) "2024" "lean"
          ⟨none, some [⟨some "Cooking pasta", some "food", some "http://b"⟩], none⟩ =
        researchReport (fun u => "Y" ++ u) "2024" "lean"
          ⟨none, some [⟨some "Cooking pasta", some "food", some "http://b"⟩], none⟩)
    ∧ (entryLines (fun _ => "stuff") "lean" 0
          ⟨some "Cooking pasta", some "food", some "http://b"⟩ =
        entryBaseLines 0 ⟨some "Cooking pasta", some "food", some "http://b"⟩)
    ∧ (entryLines (fun _ => "Error: HTTP 500") "lean" 0
          ⟨some "Lean theorem proving", some "s", some "http://a"⟩ =
        entryBaseLines 0 ⟨some "Lean theorem proving", some "s", some "http://a"⟩) := by
  refine ⟨claim_C9.1 _ _ _ _ _ _, claim_C9.2.1 _ _ _ _ _ (by decide),
    claim_C9.2.2.1 _ _ _ _ (by decide), claim_C9.2.2.2 _ _ _ _ (by decide)⟩

end Agentcy
